import Mathlib

/-!
Shallow embedding of the light-client divergence detector of the tenderdash
repository (package `light`, functions `detectDivergence`,
`compareNewHeaderWithWitness`, `getTargetBlockOrLatest`) and of the
`HexBytes.ShortString` helper of `libs/bytes/bytes.go`.

Modelling conventions:
* Heights and times (`int64`, `time.Time`) are `Int`; only comparisons are
  performed on them in the embedded code, so no overflow arithmetic arises.
* A provider (`provider.Provider`) is a function from a requested height to
  either a light block or a provider-level error (`witness.LightBlock`).
  A witness occurring in `compareNewHeaderWithWitness` is queried both before
  and after the `time.Sleep(2*maxClockDrift + maxBlockLag)` call; since its
  answers may change over time, a witness is modelled as a pair of provider
  functions: `pre` (answers before the sleep) and `post` (answers after it).
* The messages a comparator goroutine sends on the shared channel `errc` are
  returned as a list, in send order; the performed sleeps and the heights
  queried from the witness are returned alongside as instrumentation.
* The fan-in loop of `detectDivergence` drains exactly `len(witnesses)`
  messages from the channel in some arrival order; that drained list is a
  parameter (`drain`) of the embedded `detectDivergence`, abstracting the
  scheduler's interleaving.
-/

set_option autoImplicit false

namespace Tenderdash

namespace Light

/-- The provider-level error kinds of `light/provider`:
`ErrNoResponse`, `ErrLightBlockNotFound`, `ErrHeightTooHigh`,
`ErrBadLightBlock` and any other (unclassified transport) error. -/
inductive ProviderError where
  | noResponse
  | lightBlockNotFound
  | heightTooHigh
  | badLightBlock
  | other
  deriving DecidableEq, Repr, Inhabited

/-- `types.SignedHeader`, reduced to the fields the detector reads:
`Height`, `Time` and the header hash `Hash()`. -/
structure SignedHeader where
  height : Int
  time : Int
  hash : List Nat
  deriving DecidableEq, Repr, Inhabited

/-- `types.LightBlock`: a signed header (plus a validator set, which the
detector never inspects, so it is omitted). -/
structure LightBlock where
  signedHeader : SignedHeader
  deriving DecidableEq, Repr, Inhabited

/-- `lightBlock.Height` delegates to the signed header. -/
def LightBlock.height (lb : LightBlock) : Int := lb.signedHeader.height

/-- `lightBlock.Time` delegates to the signed header. -/
def LightBlock.time (lb : LightBlock) : Int := lb.signedHeader.time

/-- `lightBlock.Hash()` delegates to the signed header. -/
def LightBlock.hash (lb : LightBlock) : List Nat := lb.signedHeader.hash

/-- A provider answering `LightBlock(ctx, height)`; height `0` asks for the
latest block the peer knows. -/
def Provider : Type := Int → Except ProviderError LightBlock

/-- A witness provider as seen across one comparator run: `pre` answers the
queries issued before the `time.Sleep` in `compareNewHeaderWithWitness`,
`post` answers the queries issued after it. -/
structure Witness where
  pre : Provider
  post : Provider

/-- A value sent on the shared channel `errc` by a comparator goroutine:
`nil` (`ok`), `errConflictingHeaders{Block, WitnessIndex}`,
`errBadWitness{Reason, WitnessIndex}`, or a raw provider error passed
through unwrapped (`errc <- err` at the `ErrNoResponse` /
`ErrLightBlockNotFound` case and at the first `getTargetBlockOrLatest`
failure, and `errc <- provider.ErrNoResponse` at the end of the
lag-handling branch). -/
inductive ChannelMsg where
  | ok
  | conflicting (block : LightBlock) (witnessIndex : Nat)
  | badWitness (reason : ProviderError) (witnessIndex : Nat)
  | passThrough (e : ProviderError)
  deriving DecidableEq, Repr

/-- `getTargetBlockOrLatest(ctx, height, witness)` (detector.go:208-233),
instrumented with the list of heights it queried from the witness.
It fetches the latest block (height 0); on error it fails; if the latest
height equals the target it returns `(true, latest)`; if the latest height
exceeds the target it performs one more fetch at exactly the target height
and returns that result as matched; otherwise it returns `(false, latest)`. -/
def getTargetBlockOrLatest (height : Int) (f : Provider) :
    Except ProviderError (Bool × LightBlock) × List Int :=
  match f 0 with
  | Except.error e => (Except.error e, [0])
  | Except.ok lightBlock =>
    if lightBlock.height = height then
      (Except.ok (true, lightBlock), [0])
    else if height < lightBlock.height then
      match f height with
      | Except.error e => (Except.error e, [0, height])
      | Except.ok lb => (Except.ok (true, lb), [0, height])
    else
      (Except.ok (false, lightBlock), [0])

/-- The tail of `compareNewHeaderWithWitness` (detector.go:189-194): compare
the two hashes with `bytes.Equal`. The mismatch branch sends
`errConflictingHeaders` on `errc` and then falls through (there is no
`return` statement), so `errc <- nil` is executed as well; the match branch
sends only `nil`. -/
def finalCompare (h : SignedHeader) (lightBlock : LightBlock) (witnessIndex : Nat) :
    List ChannelMsg :=
  if ¬ h.hash = lightBlock.hash then
    [ChannelMsg.conflicting lightBlock witnessIndex, ChannelMsg.ok]
  else
    [ChannelMsg.ok]

/-- The outcome of one comparator goroutine: the messages it sent on `errc`
in order, the sleep durations it performed, and the heights it queried from
its witness, in order. -/
structure CompareRun where
  msgs : List ChannelMsg
  sleeps : List Nat
  queries : List Int
  deriving Repr

/-- The `provider.ErrHeightTooHigh` case of `compareNewHeaderWithWitness`
(detector.go:129-180). First `getTargetBlockOrLatest` resolves against the
witness; a failure is passed through raw. If the target height was not
reached and the witness's latest time is not before the primary's, report
conflicting at once. Otherwise sleep `2*maxClockDrift + maxBlockLag`, retry
`getTargetBlockOrLatest` once (a failure now is wrapped as `errBadWitness`),
re-check the time, and finally report `provider.ErrNoResponse`. -/
def heightTooHighBranch (maxClockDrift maxBlockLag : Nat) (h : SignedHeader)
    (w : Witness) (witnessIndex : Nat) : CompareRun :=
  let g1 := getTargetBlockOrLatest h.height w.pre
  match g1.1 with
  | Except.error e =>
    { msgs := [ChannelMsg.passThrough e], sleeps := [], queries := h.height :: g1.2 }
  | Except.ok (true, lightBlock) =>
    { msgs := finalCompare h lightBlock witnessIndex, sleeps := [],
      queries := h.height :: g1.2 }
  | Except.ok (false, lightBlock) =>
    if ¬ lightBlock.time < h.time then
      { msgs := [ChannelMsg.conflicting lightBlock witnessIndex], sleeps := [],
        queries := h.height :: g1.2 }
    else
      let g2 := getTargetBlockOrLatest h.height w.post
      let slept := [2 * maxClockDrift + maxBlockLag]
      let qs := h.height :: (g1.2 ++ g2.2)
      match g2.1 with
      | Except.error e =>
        { msgs := [ChannelMsg.badWitness e witnessIndex], sleeps := slept, queries := qs }
      | Except.ok (true, lb2) =>
        { msgs := finalCompare h lb2 witnessIndex, sleeps := slept, queries := qs }
      | Except.ok (false, lb2) =>
        if ¬ lb2.time < h.time then
          { msgs := [ChannelMsg.conflicting lb2 witnessIndex], sleeps := slept, queries := qs }
        else
          { msgs := [ChannelMsg.passThrough ProviderError.noResponse], sleeps := slept,
            queries := qs }

/-- `compareNewHeaderWithWitness(ctx, errc, h, witness, witnessIndex)`
(detector.go:110-195), as the list of messages it sends on `errc` plus
instrumentation. The initial query asks the witness for the block at the
primary header's height; `ErrNoResponse` and `ErrLightBlockNotFound` are
passed through raw; `ErrHeightTooHigh` enters the height-reconciliation
branch; every other error is wrapped as `errBadWitness`; on success the
hashes are compared by `finalCompare`. -/
def compareNewHeaderWithWitness (maxClockDrift maxBlockLag : Nat) (h : SignedHeader)
    (w : Witness) (witnessIndex : Nat) : CompareRun :=
  match w.pre h.height with
  | Except.ok lightBlock =>
    { msgs := finalCompare h lightBlock witnessIndex, sleeps := [], queries := [h.height] }
  | Except.error ProviderError.noResponse =>
    { msgs := [ChannelMsg.passThrough ProviderError.noResponse], sleeps := [],
      queries := [h.height] }
  | Except.error ProviderError.lightBlockNotFound =>
    { msgs := [ChannelMsg.passThrough ProviderError.lightBlockNotFound], sleeps := [],
      queries := [h.height] }
  | Except.error ProviderError.heightTooHigh =>
    heightTooHighBranch maxClockDrift maxBlockLag h w witnessIndex
  | Except.error ProviderError.badLightBlock =>
    { msgs := [ChannelMsg.badWitness ProviderError.badLightBlock witnessIndex], sleeps := [],
      queries := [h.height] }
  | Except.error ProviderError.other =>
    { msgs := [ChannelMsg.badWitness ProviderError.other witnessIndex], sleeps := [],
      queries := [h.height] }

/-- One iteration of the fan-in loop of `detectDivergence`
(detector.go:54-86): the accumulator is `(headerMatched, witnessesToRemove)`.
`nil` sets the matched flag; `errConflictingHeaders` appends its witness
index to the removal list; `errBadWitness` appends its index only when the
`Reason` type-asserts to `provider.ErrBadLightBlock`; every other value
matches no case of the type switch and leaves the accumulator unchanged. -/
def fanInStep (acc : Bool × List Nat) (msg : ChannelMsg) : Bool × List Nat :=
  match msg with
  | ChannelMsg.ok => (true, acc.2)
  | ChannelMsg.conflicting _ i => (acc.1, acc.2 ++ [i])
  | ChannelMsg.badWitness reason i =>
    match reason with
    | ProviderError.badLightBlock => (acc.1, acc.2 ++ [i])
    | _ => acc
  | ChannelMsg.passThrough _ => acc

/-- The whole fan-in loop over the drained messages, starting from
`headerMatched = false` and an empty removal list. -/
def fanIn (drain : List ChannelMsg) : Bool × List Nat :=
  drain.foldl fanInStep (false, [])

/-- Modelled from the spec: `removeWitnesses` is declared on `Client` but its
body is not among the provided sources. Per spec §4.4 step 5 it removes all
queued witness indices from the registry as a single batch, the index values
referring to pre-removal positions (mark-and-compact). -/
def removeWitnesses (idxs : List Nat) (ws : List Witness) : List Witness :=
  (ws.enum.filter (fun p => ¬ p.1 ∈ idxs)).map (fun p => p.2)

/-- The outcome of `detectDivergence` as surfaced to its caller. -/
inductive DetectResult where
  | invalidTrace
  | noWitnesses
  | success
  | failedCrossReferencing
  deriving DecidableEq, Repr

/-- The observable effect of one `detectDivergence` call: the returned
error/success, the witness registry after the run, and every
`(witnessIndex, height)` query issued to a witness during the run. -/
structure DetectOutcome where
  result : DetectResult
  witnesses : List Witness
  queries : List (Nat × Int)

/-- `detectDivergence(ctx, primaryTrace, now)` (detector.go:27-101).
A nil Go slice has length 0, so the guard `primaryTrace == nil ||
len(primaryTrace) < 2` is `length < 2` on the modelled trace. After the
guards, the last trace element's signed header is compared against every
witness concurrently; `drain` is the list of messages the fan-in loop reads
off the shared channel (one read per witness, in arrival order). The removal
list and matched flag are folded by `fanInStep`, the queued witnesses are
removed, and the decision is `success` iff some drained message was `nil`,
else the cross-referencing failure. -/
def detectDivergence (maxClockDrift maxBlockLag : Nat) (primaryTrace : List LightBlock)
    (witnesses : List Witness) (drain : List ChannelMsg) : DetectOutcome :=
  if primaryTrace.length < 2 then
    { result := DetectResult.invalidTrace, witnesses := witnesses, queries := [] }
  else if witnesses.length = 0 then
    { result := DetectResult.noWitnesses, witnesses := witnesses, queries := [] }
  else
    let lastVerifiedHeader := (primaryTrace.getLastD default).signedHeader
    let queries := (witnesses.enum.map (fun p =>
      (compareNewHeaderWithWitness maxClockDrift maxBlockLag lastVerifiedHeader p.2 p.1).queries.map
        (fun q => (p.1, q)))).flatten
    let agg := fanIn drain
    { result := if agg.1 then DetectResult.success else DetectResult.failedCrossReferencing,
      witnesses := removeWitnesses agg.2 witnesses,
      queries := queries }

end Light

namespace BytesPkg

/-- A hexadecimal digit as produced by Go's `encoding/hex` package, which
uses the lowercase alphabet `0123456789abcdef`. -/
def lowerHexDigit (n : Nat) : Char :=
  if n < 10 then Char.ofNat (48 + n) else Char.ofNat (87 + n)

/-- `hex.EncodeToString`: each byte becomes its high nibble's digit followed
by its low nibble's digit. Bytes are `Nat` values reduced mod 256. -/
def hexEncodeToString (bs : List Nat) : String :=
  String.mk (bs.foldr
    (fun b acc => lowerHexDigit (b % 256 / 16) :: lowerHexDigit (b % 16) :: acc) [])

/-- `strings.ToUpper` on ASCII strings: uppercase every character. -/
def stringsToUpper (s : String) : String :=
  String.mk (s.data.map Char.toUpper)

/-- Go slicing `bs[:n]` on a slice whose capacity equals its length: valid
(returning the first `n` elements) when `n ≤ len(bs)`, out of bounds
(slice-bounds panic) otherwise. -/
def goSliceUpTo (bs : List Nat) (n : Nat) : Option (List Nat) :=
  if n ≤ bs.length then some (bs.take n) else none

/-- `HexBytes.ShortString` (libs/bytes/bytes.go:51-53):
`strings.ToUpper(hex.EncodeToString(bz[:3]))`, with the slicing embedded as
the fallible `goSliceUpTo`; `none` is the panicking branch. -/
def ShortString (bz : List Nat) : Option String :=
  (goSliceUpTo bz 3).map (fun s => stringsToUpper (hexEncodeToString s))

end BytesPkg

namespace Light

/-- A primary signed header at height 10, time 50, hash `[1, 2, 3]`. -/
def hdrA : SignedHeader := ⟨10, 50, [1, 2, 3]⟩

/-- A light block carrying exactly the primary header. -/
def blockA : LightBlock := ⟨hdrA⟩

/-- A light block at the primary's height with a different hash. -/
def blockB : LightBlock := ⟨⟨10, 50, [9, 9, 9]⟩⟩

/-- A light block behind the primary in height (7 < 10) whose time (60) is
not earlier than the primary's (50). -/
def blockLagLate : LightBlock := ⟨⟨7, 60, [4]⟩⟩

/-- A light block behind the primary in height with an earlier time. -/
def blockLag1 : LightBlock := ⟨⟨7, 20, [5]⟩⟩

/-- A second lagging block, still behind and still earlier in time. -/
def blockLag2 : LightBlock := ⟨⟨8, 30, [6]⟩⟩

/-- A light block ahead of the target height (12 > 10). -/
def blockHigh : LightBlock := ⟨⟨12, 70, [7]⟩⟩

/-- A witness that never responds. -/
def stubWitness : Witness :=
  ⟨fun _ => Except.error ProviderError.noResponse,
   fun _ => Except.error ProviderError.noResponse⟩

/-- A witness that always returns the conflicting block `blockB`. -/
def conflictWitness : Witness :=
  ⟨fun _ => Except.ok blockB, fun _ => Except.ok blockB⟩

/-- A witness behind the target height whose latest block's time is at or
after the primary's. -/
def lateLagWitness : Witness :=
  ⟨fun hh => if hh = 0 then Except.ok blockLagLate
             else Except.error ProviderError.heightTooHigh,
   fun _ => Except.error ProviderError.noResponse⟩

/-- A witness that stays behind the target height, with time-consistent lag,
both before and after the lag wait. -/
def slowWitness : Witness :=
  ⟨fun hh => if hh = 0 then Except.ok blockLag1
             else Except.error ProviderError.heightTooHigh,
   fun hh => if hh = 0 then Except.ok blockLag2
             else Except.error ProviderError.heightTooHigh⟩

/-- A witness whose target-height query reports `ErrHeightTooHigh` and whose
latest-block query fails with `ErrBadLightBlock`. -/
def badFirstWitness : Witness :=
  ⟨fun hh => if hh = 0 then Except.error ProviderError.badLightBlock
             else Except.error ProviderError.heightTooHigh,
   fun _ => Except.error ProviderError.noResponse⟩

/-- A provider whose latest block is above the target height 10 and which
serves `blockA` at any explicitly requested height. -/
def aboveProvider : Provider :=
  fun hh => if hh = 0 then Except.ok blockHigh else Except.ok blockA

/-- A two-element primary trace ending in the header `hdrA`. -/
def trace2 : List LightBlock := [blockA, blockA]

theorem fanInStep_fst_of_true (acc : Bool × List Nat) (m : ChannelMsg)
    (h : acc.1 = true) : (fanInStep acc m).1 = true := by
  cases m with
  | ok => rfl
  | conflicting lb i => simpa [fanInStep] using h
  | badWitness r i => cases r <;> simpa [fanInStep] using h
  | passThrough e => simpa [fanInStep] using h

theorem fanInStep_fst_of_ne_ok (acc : Bool × List Nat) (m : ChannelMsg)
    (h : m ≠ ChannelMsg.ok) : (fanInStep acc m).1 = acc.1 := by
  cases m with
  | ok => exact absurd rfl h
  | conflicting lb i => rfl
  | badWitness r i => cases r <;> rfl
  | passThrough e => rfl

theorem foldl_fanInStep_fst_of_true (l : List ChannelMsg) (acc : Bool × List Nat)
    (h : acc.1 = true) : (List.foldl fanInStep acc l).1 = true := by
  induction l generalizing acc with
  | nil => simpa using h
  | cons m t ih => exact ih (fanInStep acc m) (fanInStep_fst_of_true acc m h)

theorem foldl_fanInStep_fst_of_mem (l : List ChannelMsg) (acc : Bool × List Nat)
    (h : ChannelMsg.ok ∈ l) : (List.foldl fanInStep acc l).1 = true := by
  induction l generalizing acc with
  | nil => cases h
  | cons m t ih =>
    rcases List.mem_cons.mp h with h1 | h2
    · subst h1
      exact foldl_fanInStep_fst_of_true t _ rfl
    · exact ih (fanInStep acc m) h2

theorem foldl_fanInStep_fst_of_not_mem (l : List ChannelMsg) (acc : Bool × List Nat)
    (h : ChannelMsg.ok ∉ l) : (List.foldl fanInStep acc l).1 = acc.1 := by
  induction l generalizing acc with
  | nil => rfl
  | cons m t ih =>
    have hm : m ≠ ChannelMsg.ok := fun he => h (he ▸ List.mem_cons_self m t)
    have ht : ChannelMsg.ok ∉ t := fun he => h (List.mem_cons_of_mem m he)
    rw [List.foldl_cons, ih (fanInStep acc m) ht,
      fanInStep_fst_of_ne_ok acc m hm]

theorem fanInStep_snd_mem (acc : Bool × List Nat) (m : ChannelMsg) (i : Nat)
    (h : i ∈ acc.2) : i ∈ (fanInStep acc m).2 := by
  cases m with
  | ok => simpa [fanInStep] using h
  | conflicting lb j => simp [fanInStep, List.mem_append, h]
  | badWitness r j => cases r <;> simp [fanInStep, List.mem_append, h]
  | passThrough e => simpa [fanInStep] using h

theorem foldl_fanInStep_snd_mem (l : List ChannelMsg) (acc : Bool × List Nat) (i : Nat)
    (h : i ∈ acc.2) : i ∈ (List.foldl fanInStep acc l).2 := by
  induction l generalizing acc with
  | nil => simpa using h
  | cons m t ih => exact ih (fanInStep acc m) (fanInStep_snd_mem acc m i h)

theorem foldl_fanInStep_snd_of_conflicting (l : List ChannelMsg) (acc : Bool × List Nat)
    (lb : LightBlock) (i : Nat) (h : ChannelMsg.conflicting lb i ∈ l) :
    i ∈ (List.foldl fanInStep acc l).2 := by
  induction l generalizing acc with
  | nil => cases h
  | cons m t ih =>
    rcases List.mem_cons.mp h with h1 | h2
    · subst h1
      exact foldl_fanInStep_snd_mem t _ i (by simp [fanInStep])
    · exact ih (fanInStep acc m) h2

theorem foldl_fanInStep_replicate (n : Nat) (e : ProviderError) (acc : Bool × List Nat) :
    List.foldl fanInStep acc (List.replicate n (ChannelMsg.passThrough e)) = acc := by
  induction n generalizing acc with
  | zero => rfl
  | succ k ih => rw [List.replicate_succ, List.foldl_cons]; exact ih (fanInStep acc _)

theorem removeWitnesses_nil (ws : List Witness) : removeWitnesses [] ws = ws := by
  simp [removeWitnesses, List.enum_map_snd]

theorem getTargetBlockOrLatest_error (height : Int) (f : Provider) (e : ProviderError)
    (h : f 0 = Except.error e) :
    getTargetBlockOrLatest height f = (Except.error e, [0]) := by
  simp [getTargetBlockOrLatest, h]

theorem getTargetBlockOrLatest_atTarget (height : Int) (f : Provider) (lb : LightBlock)
    (h0 : f 0 = Except.ok lb) (he : lb.height = height) :
    getTargetBlockOrLatest height f = (Except.ok (true, lb), [0]) := by
  simp [getTargetBlockOrLatest, h0, he]

theorem getTargetBlockOrLatest_above (height : Int) (f : Provider) (lb : LightBlock)
    (h0 : f 0 = Except.ok lb) (hgt : height < lb.height) :
    getTargetBlockOrLatest height f =
      ((f height).map (fun b => (true, b)), [0, height]) := by
  have hne : ¬ lb.height = height := by omega
  simp only [getTargetBlockOrLatest, h0, if_neg hne, if_pos hgt]
  cases hfh : f height <;> simp [Except.map]

theorem getTargetBlockOrLatest_below (height : Int) (f : Provider) (lb : LightBlock)
    (h0 : f 0 = Except.ok lb) (hlt : lb.height < height) :
    getTargetBlockOrLatest height f = (Except.ok (false, lb), [0]) := by
  have hne : ¬ lb.height = height := by omega
  have hngt : ¬ height < lb.height := by omega
  simp [getTargetBlockOrLatest, h0, if_neg hne, if_neg hngt]

theorem compareNewHeaderWithWitness_heightTooHigh (maxClockDrift maxBlockLag : Nat)
    (h : SignedHeader) (w : Witness) (i : Nat)
    (hp : w.pre h.height = Except.error ProviderError.heightTooHigh) :
    compareNewHeaderWithWitness maxClockDrift maxBlockLag h w i =
      heightTooHighBranch maxClockDrift maxBlockLag h w i := by
  simp [compareNewHeaderWithWitness, hp]

theorem detectDivergence_result_main (maxClockDrift maxBlockLag : Nat)
    (trace : List LightBlock) (ws : List Witness) (drain : List ChannelMsg)
    (h2 : 2 ≤ trace.length) (hw : ws ≠ []) :
    (detectDivergence maxClockDrift maxBlockLag trace ws drain).result =
      if (fanIn drain).1 then DetectResult.success
      else DetectResult.failedCrossReferencing := by
  unfold detectDivergence
  rw [if_neg (by omega), if_neg (fun h => hw (List.length_eq_zero.mp h))]

theorem detectDivergence_witnesses_main (maxClockDrift maxBlockLag : Nat)
    (trace : List LightBlock) (ws : List Witness) (drain : List ChannelMsg)
    (h2 : 2 ≤ trace.length) (hw : ws ≠ []) :
    (detectDivergence maxClockDrift maxBlockLag trace ws drain).witnesses =
      removeWitnesses (fanIn drain).2 ws := by
  unfold detectDivergence
  rw [if_neg (by omega), if_neg (fun h => hw (List.length_eq_zero.mp h))]

/-- C1 (refuted: code bug, the C2 double-send reaching the fan-in): two
witnesses both serve a conflicting block at the target height, so neither
comparison matched and both reported conflicting headers; each comparator
emits `[errConflictingHeaders, nil]` because of the missing `return` at
detector.go:189-191. The shared channel has capacity 2 and the fan-in loop
reads exactly 2 messages, so under the schedule in which witness 0's
goroutine sends first, the drained messages are witness 0's
`[errConflictingHeaders, nil]`. Evaluating the detector there: the spurious
`nil` sets the matched flag, so the call returns success — though no witness
matched, where the claim requires the cross-referencing failure — and only
witness 0 is removed, leaving witness 1 in the registry although its
comparison reported a conflicting header at the target height. This also
contradicts the detector's own comments at detector.go:93-99. -/
theorem detectDivergence_spuriousSuccess :
    (compareNewHeaderWithWitness 0 0 hdrA conflictWitness 0).msgs =
      [ChannelMsg.conflicting blockB 0, ChannelMsg.ok] ∧
    (compareNewHeaderWithWitness 0 0 hdrA conflictWitness 1).msgs =
      [ChannelMsg.conflicting blockB 1, ChannelMsg.ok] ∧
    (detectDivergence 0 0 trace2 [conflictWitness, conflictWitness]
        [ChannelMsg.conflicting blockB 0, ChannelMsg.ok]).result =
      DetectResult.success ∧
    (detectDivergence 0 0 trace2 [conflictWitness, conflictWitness]
        [ChannelMsg.conflicting blockB 0, ChannelMsg.ok]).witnesses =
      [conflictWitness] :=
  ⟨rfl, rfl, rfl, rfl⟩

/-- C7: a trace that is nil (length 0) or shorter than 2 elements makes
`detectDivergence` fail with the input-validation error for every witness
registry and every drained result list, with the registry unchanged and no
witness query issued. -/
theorem detectDivergence_shortTrace (maxClockDrift maxBlockLag : Nat)
    (trace : List LightBlock) (ws : List Witness) (drain : List ChannelMsg)
    (h : trace.length < 2) :
    detectDivergence maxClockDrift maxBlockLag trace ws drain =
      { result := DetectResult.invalidTrace, witnesses := ws, queries := [] } := by
  unfold detectDivergence
  rw [if_pos h]

/-- Witness for C7: the empty trace with a registered witness fails with the
input-validation error, registry untouched, no queries. -/
theorem detectDivergence_shortTrace_witness :
    detectDivergence 0 0 [] [stubWitness] [] =
      { result := DetectResult.invalidTrace, witnesses := [stubWitness], queries := [] } :=
  detectDivergence_shortTrace 0 0 [] [stubWitness] [] (by decide)

/-- C8: with a valid trace and an empty witness registry, `detectDivergence`
fails with the no-witnesses error for every drained result list, issuing no
witness query and leaving the (empty) registry unchanged. -/
theorem detectDivergence_noWitnesses (maxClockDrift maxBlockLag : Nat)
    (trace : List LightBlock) (drain : List ChannelMsg) (h2 : 2 ≤ trace.length) :
    detectDivergence maxClockDrift maxBlockLag trace [] drain =
      { result := DetectResult.noWitnesses, witnesses := [], queries := [] } := by
  unfold detectDivergence
  rw [if_neg (by omega)]
  rfl

/-- Witness for C8: the concrete two-block trace with an empty registry. -/
theorem detectDivergence_noWitnesses_witness :
    detectDivergence 0 0 trace2 [] [] =
      { result := DetectResult.noWitnesses, witnesses := [], queries := [] } :=
  detectDivergence_noWitnesses 0 0 trace2 [] (by decide)

/-- C3: the fan-in queues a `BadWitness` index for removal only when its
reason is the invalid-light-block classification, ignores pass-through
provider errors (unreachability / missing data), and in the scenario where
one drained result is `nil` and all others are `NoResponse` pass-throughs
the call succeeds with the registry unchanged. -/
theorem detectDivergence_unresponsiveNotRemoved (maxClockDrift maxBlockLag : Nat)
    (trace : List LightBlock) (ws : List Witness) (a b : Nat)
    (h2 : 2 ≤ trace.length) (hw : ws ≠ []) :
    (∀ acc i r, r ≠ ProviderError.badLightBlock →
      fanInStep acc (ChannelMsg.badWitness r i) = acc) ∧
    (∀ acc i, fanInStep acc (ChannelMsg.badWitness ProviderError.badLightBlock i) =
      (acc.1, acc.2 ++ [i])) ∧
    (∀ acc e, fanInStep acc (ChannelMsg.passThrough e) = acc) ∧
    ((detectDivergence maxClockDrift maxBlockLag trace ws
        (List.replicate a (ChannelMsg.passThrough ProviderError.noResponse) ++
          ChannelMsg.ok ::
            List.replicate b (ChannelMsg.passThrough ProviderError.noResponse))).result =
        DetectResult.success ∧
      (detectDivergence maxClockDrift maxBlockLag trace ws
        (List.replicate a (ChannelMsg.passThrough ProviderError.noResponse) ++
          ChannelMsg.ok ::
            List.replicate b (ChannelMsg.passThrough ProviderError.noResponse))).witnesses =
        ws) := by
  have hfan : fanIn
      (List.replicate a (ChannelMsg.passThrough ProviderError.noResponse) ++
        ChannelMsg.ok ::
          List.replicate b (ChannelMsg.passThrough ProviderError.noResponse)) =
      (true, []) := by
    unfold fanIn
    rw [List.foldl_append, foldl_fanInStep_replicate, List.foldl_cons,
      foldl_fanInStep_replicate]
    rfl
  refine ⟨?_, ?_, ?_, ?_, ?_⟩
  · intro acc i r hr
    cases r with
    | badLightBlock => exact absurd rfl hr
    | noResponse => rfl
    | lightBlockNotFound => rfl
    | heightTooHigh => rfl
    | other => rfl
  · intro acc i
    rfl
  · intro acc e
    rfl
  · rw [detectDivergence_result_main maxClockDrift maxBlockLag trace ws _ h2 hw, hfan]
    rfl
  · rw [detectDivergence_witnesses_main maxClockDrift maxBlockLag trace ws _ h2 hw, hfan]
    exact removeWitnesses_nil ws

/-- C2 (refuted: code bug): when the witness serves a block at the target
height whose hash differs from the primary header's, the comparator sends
`errConflictingHeaders` on the channel and then, because the mismatch branch
at detector.go:189-191 has no `return`, falls through to `errc <- nil` as
well — two messages in one invocation, of which the second is a spurious
`nil` (match) report. Evaluated here at a concrete conflicting witness. -/
theorem compareNewHeaderWithWitness_doubleSend :
    (compareNewHeaderWithWitness 0 0 hdrA conflictWitness 0).msgs =
      [ChannelMsg.conflicting blockB 0, ChannelMsg.ok] ∧
    2 ≤ (compareNewHeaderWithWitness 0 0 hdrA conflictWitness 0).msgs.length ∧
    ChannelMsg.ok ∈ (compareNewHeaderWithWitness 0 0 hdrA conflictWitness 0).msgs := by
  have h : (compareNewHeaderWithWitness 0 0 hdrA conflictWitness 0).msgs =
      [ChannelMsg.conflicting blockB 0, ChannelMsg.ok] := rfl
  refine ⟨h, ?_, ?_⟩
  · rw [h]
    simp
  · rw [h]
    simp

/-- C4: in the height-reconciliation branch, a witness whose latest block is
strictly below the primary's height with a time not earlier than the
primary's is reported conflicting immediately: the single message is
`errConflictingHeaders` and no lag-tolerance sleep is performed. -/
theorem compareNewHeaderWithWitness_lagConflict (maxClockDrift maxBlockLag : Nat)
    (h : SignedHeader) (w : Witness) (i : Nat) (lb : LightBlock)
    (hp : w.pre h.height = Except.error ProviderError.heightTooHigh)
    (h0 : w.pre 0 = Except.ok lb) (hh : lb.height < h.height)
    (ht : h.time ≤ lb.time) :
    (compareNewHeaderWithWitness maxClockDrift maxBlockLag h w i).msgs =
      [ChannelMsg.conflicting lb i] ∧
    (compareNewHeaderWithWitness maxClockDrift maxBlockLag h w i).sleeps = [] := by
  rw [compareNewHeaderWithWitness_heightTooHigh maxClockDrift maxBlockLag h w i hp]
  unfold heightTooHighBranch
  rw [getTargetBlockOrLatest_below h.height w.pre lb h0 hh]
  have hcond : ¬ lb.time < h.time := not_lt.mpr ht
  refine ⟨?_, ?_⟩ <;> simp [hcond]

/-- Witness for C4: a witness at height 7 < 10 whose latest time 60 is after
the primary's 50; conflicting is reported with no sleep. -/
theorem compareNewHeaderWithWitness_lagConflict_witness :
    (compareNewHeaderWithWitness 0 0 hdrA lateLagWitness 0).msgs =
      [ChannelMsg.conflicting blockLagLate 0] ∧
    (compareNewHeaderWithWitness 0 0 hdrA lateLagWitness 0).sleeps = [] :=
  compareNewHeaderWithWitness_lagConflict 0 0 hdrA lateLagWitness 0 blockLagLate
    rfl rfl (by decide) (by decide)

/-- C5: a witness behind the target height with a time-consistent lag makes
the comparator sleep exactly once for `2*maxClockDrift + maxBlockLag` and
retry `getTargetBlockOrLatest` exactly once (queries `[H, 0, 0]`); if the
witness is still behind and still time-consistent, the single message is the
inconclusive `provider.ErrNoResponse` pass-through, which the fan-in ignores
(the witness is not removed). -/
theorem compareNewHeaderWithWitness_slowLag (maxClockDrift maxBlockLag : Nat)
    (h : SignedHeader) (w : Witness) (i : Nat) (lb1 lb2 : LightBlock)
    (hp : w.pre h.height = Except.error ProviderError.heightTooHigh)
    (h01 : w.pre 0 = Except.ok lb1) (hh1 : lb1.height < h.height)
    (ht1 : lb1.time < h.time)
    (h02 : w.post 0 = Except.ok lb2) (hh2 : lb2.height < h.height)
    (ht2 : lb2.time < h.time) :
    (compareNewHeaderWithWitness maxClockDrift maxBlockLag h w i).msgs =
      [ChannelMsg.passThrough ProviderError.noResponse] ∧
    (compareNewHeaderWithWitness maxClockDrift maxBlockLag h w i).sleeps =
      [2 * maxClockDrift + maxBlockLag] ∧
    (compareNewHeaderWithWitness maxClockDrift maxBlockLag h w i).queries =
      [h.height, 0, 0] ∧
    (∀ acc, fanInStep acc (ChannelMsg.passThrough ProviderError.noResponse) = acc) := by
  rw [compareNewHeaderWithWitness_heightTooHigh maxClockDrift maxBlockLag h w i hp]
  unfold heightTooHighBranch
  rw [getTargetBlockOrLatest_below h.height w.pre lb1 h01 hh1,
    getTargetBlockOrLatest_below h.height w.post lb2 h02 hh2]
  refine ⟨?_, ?_, ?_, fun acc => rfl⟩ <;> simp [ht1, ht2]

/-- Witness for C5: the concrete `slowWitness` at drift 3, lag 4 sleeps
`2*3 + 4 = 10` once, queries heights `[10, 0, 0]`, and reports the
`NoResponse` pass-through. -/
theorem compareNewHeaderWithWitness_slowLag_witness :
    (compareNewHeaderWithWitness 3 4 hdrA slowWitness 0).msgs =
      [ChannelMsg.passThrough ProviderError.noResponse] ∧
    (compareNewHeaderWithWitness 3 4 hdrA slowWitness 0).sleeps = [10] ∧
    (compareNewHeaderWithWitness 3 4 hdrA slowWitness 0).queries = [hdrA.height, 0, 0] :=
  have h := compareNewHeaderWithWitness_slowLag 3 4 hdrA slowWitness 0 blockLag1 blockLag2
    rfl rfl (by decide) (by decide) rfl (by decide) (by decide)
  ⟨h.1, h.2.1, h.2.2.1⟩

/-- C6: `getTargetBlockOrLatest` queries the latest block (height 0) first;
a failure there short-circuits with no block; a latest block at the target
height is returned as matched with no further query; a latest block above
the target triggers exactly one more fetch, at the target height, whose
outcome is returned as matched; a latest block below the target is returned
unmatched with no further query. -/
theorem getTargetBlockOrLatest_cases (height : Int) (f : Provider) :
    (∀ e, f 0 = Except.error e →
      getTargetBlockOrLatest height f = (Except.error e, [0])) ∧
    (∀ lb, f 0 = Except.ok lb → lb.height = height →
      getTargetBlockOrLatest height f = (Except.ok (true, lb), [0])) ∧
    (∀ lb, f 0 = Except.ok lb → height < lb.height →
      getTargetBlockOrLatest height f =
        ((f height).map (fun b => (true, b)), [0, height])) ∧
    (∀ lb, f 0 = Except.ok lb → lb.height < height →
      getTargetBlockOrLatest height f = (Except.ok (false, lb), [0])) :=
  ⟨fun e he => getTargetBlockOrLatest_error height f e he,
   fun lb h0 he => getTargetBlockOrLatest_atTarget height f lb h0 he,
   fun lb h0 hgt => getTargetBlockOrLatest_above height f lb h0 hgt,
   fun lb h0 hlt => getTargetBlockOrLatest_below height f lb h0 hlt⟩

/-- Witness for C6: a provider whose latest block is at height 12 > 10; the
helper performs the one extra fetch at height 10 and returns its block as
matched, having queried exactly `[0, 10]`. -/
theorem getTargetBlockOrLatest_cases_witness :
    getTargetBlockOrLatest 10 aboveProvider = (Except.ok (true, blockA), [0, 10]) := by
  have h := (getTargetBlockOrLatest_cases 10 aboveProvider).2.2.1 blockHigh rfl (by decide)
  rw [h]
  rfl

/-- C9: error classification in the `HeightTooHigh` branch is asymmetric: a
failure of the first `getTargetBlockOrLatest` call — with any provider
error, the invalid-light-block error included — is passed through unwrapped,
and the fan-in type switch matches no case on a pass-through, so the witness
is treated as inconclusive and never queued for removal; only a failure of
the second call, after the lag wait, is wrapped as `errBadWitness`, which
the fan-in queues for removal when the reason is the invalid-light-block
error. -/
theorem compareNewHeaderWithWitness_asymmetry (maxClockDrift maxBlockLag : Nat)
    (h : SignedHeader) (w : Witness) (i : Nat)
    (hp : w.pre h.height = Except.error ProviderError.heightTooHigh) :
    (∀ e, w.pre 0 = Except.error e →
      (compareNewHeaderWithWitness maxClockDrift maxBlockLag h w i).msgs =
        [ChannelMsg.passThrough e]) ∧
    (∀ acc e, fanInStep acc (ChannelMsg.passThrough e) = acc) ∧
    (∀ lb e2, w.pre 0 = Except.ok lb → lb.height < h.height → lb.time < h.time →
      w.post 0 = Except.error e2 →
      (compareNewHeaderWithWitness maxClockDrift maxBlockLag h w i).msgs =
        [ChannelMsg.badWitness e2 i]) ∧
    (∀ acc j, fanInStep acc (ChannelMsg.badWitness ProviderError.badLightBlock j) =
      (acc.1, acc.2 ++ [j])) := by
  refine ⟨?_, fun acc e => rfl, ?_, fun acc j => rfl⟩
  · intro e he
    rw [compareNewHeaderWithWitness_heightTooHigh maxClockDrift maxBlockLag h w i hp]
    unfold heightTooHighBranch
    rw [getTargetBlockOrLatest_error h.height w.pre e he]
  · intro lb e2 h0 hh ht h2e
    rw [compareNewHeaderWithWitness_heightTooHigh maxClockDrift maxBlockLag h w i hp]
    unfold heightTooHighBranch
    rw [getTargetBlockOrLatest_below h.height w.pre lb h0 hh,
      getTargetBlockOrLatest_error h.height w.post e2 h2e]
    simp [ht]

/-- Witness for C9: a witness whose latest-block query fails with the
invalid-light-block error before the lag wait; the raw error is passed
through and the fan-in leaves any accumulator unchanged on it. -/
theorem compareNewHeaderWithWitness_asymmetry_witness :
    (compareNewHeaderWithWitness 0 0 hdrA badFirstWitness 0).msgs =
      [ChannelMsg.passThrough ProviderError.badLightBlock] ∧
    fanInStep (false, [])
      (ChannelMsg.passThrough ProviderError.badLightBlock) = (false, []) :=
  have h := compareNewHeaderWithWitness_asymmetry 0 0 hdrA badFirstWitness 0 rfl
  ⟨h.1 ProviderError.badLightBlock rfl, h.2.1 (false, []) ProviderError.badLightBlock⟩

/-- Witness for C3: one `nil` flanked by two `NoResponse` pass-throughs;
success and the one-witness registry survives untouched. -/
theorem detectDivergence_unresponsiveNotRemoved_witness :
    (detectDivergence 0 0 trace2 [stubWitness]
        (List.replicate 1 (ChannelMsg.passThrough ProviderError.noResponse) ++
          ChannelMsg.ok ::
            List.replicate 1 (ChannelMsg.passThrough ProviderError.noResponse))).result =
      DetectResult.success ∧
    (detectDivergence 0 0 trace2 [stubWitness]
        (List.replicate 1 (ChannelMsg.passThrough ProviderError.noResponse) ++
          ChannelMsg.ok ::
            List.replicate 1 (ChannelMsg.passThrough ProviderError.noResponse))).witnesses =
      [stubWitness] :=
  (detectDivergence_unresponsiveNotRemoved 0 0 trace2 [stubWitness] 1 1
    (by decide) (List.cons_ne_nil _ _)).2.2.2

end Light

namespace BytesPkg

/-- C10: `HexBytes.ShortString` is total exactly on values of length at
least 3: there it returns the uppercased hex encoding of the first three
bytes, while on any shorter value the embedded slicing `bz[:3]` is out of
bounds and the error branch is taken. -/
theorem shortString_domain (bz : List Nat) :
    (3 ≤ bz.length →
      ShortString bz = some (stringsToUpper (hexEncodeToString (bz.take 3)))) ∧
    (bz.length < 3 → ShortString bz = none) := by
  constructor
  · intro h
    simp [ShortString, goSliceUpTo, if_pos h]
  · intro h
    simp [ShortString, goSliceUpTo, if_neg (by omega : ¬ 3 ≤ bz.length)]

/-- Witness for C10: on the three bytes `0xAB 0xCD 0xEF` the function
evaluates to `some "ABCDEF"`, and on the two bytes `0xAB 0xCD` the slicing
is out of bounds. -/
theorem shortString_domain_witness :
    ShortString [171, 205, 239] = some "ABCDEF" ∧ ShortString [171, 205] = none := by
  constructor
  · have h := (shortString_domain [171, 205, 239]).1 (by decide)
    rw [h]
    decide
  · exact (shortString_domain [171, 205]).2 (by decide)

end BytesPkg

end Tenderdash
